import Mathlib

/-!
Verification of the scan orchestration engine of `app/services/scanner.py`.

The Python source is shallowly embedded: strings are Lean `String`s and all
string processing is implemented by executable structural recursion over the
underlying character lists, so that every concrete claim can be settled by
kernel evaluation (`decide` / `rfl`).
-/

deriving instance DecidableEq for Except

namespace SiconScanner

/-! ### Elementary string machinery (models of the Python string primitives) -/

/-- Does `pre` occur as a prefix of `l`?  (Model of `str.startswith`.) -/
def listStarts : List Char → List Char → Bool
  | [], _ => true
  | _ :: _, [] => false
  | c :: cs, d :: ds => c == d && listStarts cs ds

/-- Does `needle` occur as a contiguous sublist of `hay`?
(Model of Python's substring test `needle in hay`, and of `re.search` for a
pattern that is a literal string.) -/
def listHasSub (needle : List Char) : List Char → Bool
  | [] => listStarts needle []
  | d :: ds => listStarts needle (d :: ds) || listHasSub needle ds

/-- `strHasSub hay needle`: substring test on `String`s. -/
def strHasSub (hay needle : String) : Bool :=
  listHasSub needle.data hay.data

/-- `strStartsWith s pre`: prefix test on `String`s. -/
def strStartsWith (s pre : String) : Bool :=
  listStarts pre.data s.data

/-- ASCII lowercasing, as applied by `re.IGNORECASE` to our literal patterns. -/
def lowerStr (s : String) : String :=
  ⟨s.data.map Char.toLower⟩

/-- The whitespace characters stripped by `str.strip` (ASCII fragment). -/
def isStripChar (c : Char) : Bool :=
  c == ' ' || c == '\t' || c == '\n' || c == '\r' || c == '\x0b' || c == '\x0c'

/-- Model of Python `str.strip()`. -/
def pyStrip (s : String) : String :=
  ⟨((s.data.dropWhile isStripChar).reverse.dropWhile isStripChar).reverse⟩

/-! ### Target validation (`validate_target`, scanner.py lines 29-68) -/

/-- Model of `urlparse(target).netloc` for a target that starts with
`http://` or `https://`: the text after the `//` up to the first
`/`, `?` or `#`. -/
def netlocOf (t : String) : String :=
  let rest :=
    if strStartsWith t "https://" then t.data.drop 8 else t.data.drop 7
  ⟨rest.takeWhile (fun c => !(c == '/' || c == '?' || c == '#'))⟩

/-- The host-extraction pipeline of `validate_target`: strip whitespace,
extract the netloc when a scheme is present, then drop everything from the
first `:` on (`domain.split(':')[0]`). -/
def extract_domain (target : String) : String :=
  let t := pyStrip target
  let domain :=
    if strStartsWith t "http://" || strStartsWith t "https://" then netlocOf t
    else t
  ⟨domain.data.takeWhile (fun c => !(c == ':'))⟩

/-- The `dangerous_patterns` table of `validate_target`.  Every regex in the
source is a literal string once escapes are resolved, so `re.search` on it is
a substring test.  The table is already lower-case, matching `re.IGNORECASE`. -/
def dangerous_patterns : List String :=
  ["../", "..", ";", "|", "&", "$", "\x60", "\n", "\r",
   "<", ">", "\x00", "/etc/", "/var/", "/tmp/", "/proc/",
   "c:\\", "file://"]

/-- Does the candidate domain match one of the dangerous patterns
(case-insensitively)? -/
def has_dangerous (domain : String) : Bool :=
  dangerous_patterns.any (fun p => strHasSub (lowerStr domain) p)

/-- `[a-zA-Z0-9]` (ASCII alphanumeric). -/
def isAlnumAscii (c : Char) : Bool :=
  c.isAlpha || c.isDigit

/-- Model of the anchored regex
`^[a-zA-Z0-9][a-zA-Z0-9\-\.]*[a-zA-Z0-9]$|^[a-zA-Z0-9]$`. -/
def matches_domain_format (s : String) : Bool :=
  match s.data with
  | [] => false
  | [c] => isAlnumAscii c
  | c :: rest =>
      isAlnumAscii c && isAlnumAscii (rest.getLastD c) &&
        rest.dropLast.all (fun d => isAlnumAscii d || d == '-' || d == '.')

/-- Split a character list at every `'.'` (model of `str.split('.')`). -/
def splitOnDot : List Char → List (List Char)
  | [] => [[]]
  | c :: cs =>
      let r := splitOnDot cs
      if c == '.' then [] :: r
      else
        match r with
        | [] => [[c]]
        | p :: ps => (c :: p) :: ps

/-- A group of one to three ASCII digits (`\d{1,3}`). -/
def isDigits13 (cs : List Char) : Bool :=
  decide (1 ≤ cs.length) && decide (cs.length ≤ 3) && cs.all Char.isDigit

/-- Model of the anchored regex `^(\d{1,3}\.){3}\d{1,3}$`. -/
def matches_ip_format (s : String) : Bool :=
  match splitOnDot s.data with
  | [a, b, c, d] => isDigits13 a && isDigits13 b && isDigits13 c && isDigits13 d
  | _ => false

/-- Model of `validate_target` (scanner.py lines 29-68).  `Except.error`
models the raised `ValueError`, carrying its message. -/
def validate_target (target : String) : Except String String :=
  if target = "" then .error "Target cannot be empty"
  else if has_dangerous (extract_domain target) then
    .error "Invalid target: contains dangerous pattern"
  else if matches_domain_format (extract_domain target) ||
      matches_ip_format (extract_domain target) then .ok (extract_domain target)
  else .error ("Invalid target format: " ++ extract_domain target)

example : validate_target "example.com" = .ok "example.com" := by decide
example : validate_target "../../etc/passwd" =
    .error "Invalid target: contains dangerous pattern" := by decide
example : validate_target "file://etc/passwd" = .ok "file" := by decide
example : validate_target "https://a.b.c:8080/x" = .ok "a.b.c" := by decide

/-! ### Scan options and the module plan (`run_scan_task`, lines 100-117) -/

/-- The `options` dictionary, restricted to the seven module-enable flags.
A `none` field models an absent key, so `options.get(k, default)` becomes
`Option.getD`. -/
structure ScanOptions where
  waf : Option Bool
  port : Option Bool
  subdo : Option Bool
  cms : Option Bool
  tech : Option Bool
  dir : Option Bool
  wp : Option Bool
deriving DecidableEq, Repr

/-- Options dictionary with no keys set (every flag takes its default). -/
def optsEmpty : ScanOptions := ⟨none, none, none, none, none, none, none⟩

/-- The `modules_to_run` list built by `run_scan_task` (lines 100-115):
seven `options.get(flag, default)` tests in a fixed textual order. -/
def modules_to_run (options : ScanOptions) : List String :=
  (if options.waf.getD true then ["waf"] else []) ++
  (if options.port.getD true then ["port"] else []) ++
  (if options.subdo.getD true then ["subdo"] else []) ++
  (if options.cms.getD true then ["cms"] else []) ++
  (if options.tech.getD true then ["tech"] else []) ++
  (if options.dir.getD true then ["dir"] else []) ++
  (if options.wp.getD false then ["wp"] else [])

/-- The fixed module order of the dispatcher. -/
def module_order : List String := ["waf", "port", "subdo", "cms", "tech", "dir", "wp"]

/-- The enable flag of one module, with its per-module default
(`wp` defaults to `false`, every other module to `true`). -/
def module_flag (options : ScanOptions) (m : String) : Bool :=
  if m = "waf" then options.waf.getD true
  else if m = "port" then options.port.getD true
  else if m = "subdo" then options.subdo.getD true
  else if m = "cms" then options.cms.getD true
  else if m = "tech" then options.tech.getD true
  else if m = "dir" then options.dir.getD true
  else if m = "wp" then options.wp.getD false
  else false

/-! ### The orchestrator (`run_scan_task`, lines 78-143)

Adapter payloads are an arbitrary type `α`: the orchestrator never inspects
the dictionary an adapter returns, it only stores it.  An adapter that raises
is modelled by `Except.error` carrying the exception message. -/

/-- A value stored in the scan's `results` JSON column. -/
inductive RVal (α : Type) where
  /-- the dictionary returned by `run_module` -/
  | payload : α → RVal α
  /-- a flat string-valued dictionary built by the orchestrator itself -/
  | dict : List (String × String) → RVal α
  /-- a plain string value -/
  | strVal : String → RVal α
deriving DecidableEq, Repr

/-- The `status` entry of a stored value, when it is an orchestrator-built
dictionary. -/
def RVal.statusField {α : Type} : RVal α → Option String
  | .dict fields => fields.lookup "status"
  | _ => none

/-- The persisted scan record fields that `run_scan_task` writes
(`status`, `progress`, `current_module`, `results`). -/
structure ScanState (α : Type) where
  status : String
  progress : Nat
  current_module : Option String
  results : List (String × RVal α)
deriving DecidableEq, Repr

/-- Model of `run_module` (lines 145-164): look the module up in the
`handlers` table; an unknown module yields the `unknown_module` dictionary.
`handlers` maps a module name to its adapter, an adapter maps the target to
a payload or raises. -/
def run_module {α : Type} (handlers : String → Option (String → Except String α))
    (module target : String) : Except String (RVal α) :=
  match handlers module with
  | some h => (h target).map RVal.payload
  | none => .ok (.dict [("status", "unknown_module")])

/-- What the orchestrator stores for one module (lines 124-128): the value
returned by `run_module`, or — when the adapter raised —
`{"error": str(e), "status": "failed"}`. -/
def module_entry {α : Type} (handlers : String → Option (String → Except String α))
    (target m : String) : RVal α :=
  match run_module handlers m target with
  | .ok r => r
  | .error e => .dict [("error", e), ("status", "failed")]

/-- The per-module loop of `run_scan_task` (lines 119-128).  Returns the
accumulated `results` entries and the list of scan states persisted by the
`db.commit()` at the top of each iteration.  `int((i / total) * 100)` is
modelled by `i * 100 / total`; the two agree for the divisors that occur here
(`0 ≤ i < total ≤ 7`). -/
def scan_loop {α : Type} (handlers : String → Option (String → Except String α))
    (target : String) (total : Nat) :
    List String → Nat → List (String × RVal α) × List (ScanState α)
  | [], _ => ([], [])
  | m :: rest, i =>
      let commit : ScanState α := ⟨"running", i * 100 / total, some m, []⟩
      let entry : String × RVal α := (m, module_entry handlers target m)
      let next := scan_loop handlers target total rest (i + 1)
      (entry :: next.1, commit :: next.2)

/-- Model of `run_scan_task` (lines 78-143) for a scan record loaded in its
freshly created state (`status="pending"`, `progress=0`, empty results).
Returns the terminal state and the sequence of states persisted by the
successive `db.commit()` calls. -/
def run_scan_task {α : Type} (handlers : String → Option (String → Except String α))
    (target : String) (options : ScanOptions) : ScanState α × List (ScanState α) :=
  match validate_target target with
  | .error e =>
      let s : ScanState α := ⟨"failed", 0, none, [("error", .strVal e)]⟩
      (s, [s])
  | .ok host =>
      let s0 : ScanState α := ⟨"running", 0, none, []⟩
      let plan := modules_to_run options
      let total := if plan.length = 0 then 1 else plan.length
      let run := scan_loop handlers host total plan 0
      let final : ScanState α := ⟨"completed", 100, none, run.1⟩
      (final, s0 :: (run.2 ++ [final]))

/-- A handler table in which every adapter raises (used for concrete runs). -/
def failAllHandlers : String → Option (String → Except String Unit) :=
  fun _ => some (fun _ => .error "boom")

example :
    (run_scan_task failAllHandlers "example.com" optsEmpty).1.status = "completed" := by
  decide
example :
    (run_scan_task failAllHandlers "../../etc/passwd" optsEmpty).1.status = "failed" := by
  decide
example :
    ((run_scan_task failAllHandlers "example.com" optsEmpty).1.results).lookup "waf" =
      some (RVal.dict [("error", "boom"), ("status", "failed")]) := by decide
example :
    (run_scan_task failAllHandlers "example.com" optsEmpty).2.map ScanState.progress =
      [0, 0, 16, 33, 50, 66, 83, 100] := by decide

/-! ### Port risk classification (`run_port_scan`, lines 243-257) -/

/-- The fixed risk table applied to every parsed open port. -/
def port_risk (port_num : Nat) : String :=
  if port_num ∈ [21, 23, 3389, 5900] then "high"
  else if port_num ∈ [22, 25, 110, 143, 3306, 5432] then "medium"
  else "low"

/-! ### Plugin version comparison (`run_wp_enum`, lines 704-715) -/

/-- Strict lexicographic order on character lists by code point — the
semantics of Python's `<` on strings. -/
def charsLt : List Char → List Char → Bool
  | [], [] => false
  | [], _ :: _ => true
  | _ :: _, [] => false
  | c :: cs, d :: ds =>
      if c.toNat < d.toNat then true
      else if d.toNat < c.toNat then false
      else charsLt cs ds

/-- The outdated test of `run_wp_enum` line 712: Python string comparison
`plugin_info["version"] < latest_version`, i.e. lexicographic comparison of
the two version strings by code point. -/
def plugin_outdated (installed latest : String) : Bool :=
  charsLt installed.data latest.data

/-- Parse a group of ASCII digits; `none` on the empty group or a non-digit
(model of `int(part)` raising). -/
def parseDigits : List Char → Option Nat
  | [] => none
  | cs =>
      if cs.all Char.isDigit then
        some (cs.foldl (fun acc c => acc * 10 + (c.toNat - 48)) 0)
      else none

/-- Strict lexicographic order on numeric component lists (Python tuple `<`). -/
def numListLt : List Nat → List Nat → Bool
  | [], [] => false
  | [], _ :: _ => true
  | _ :: _, [] => false
  | x :: xs, y :: ys => if x < y then true else if y < x then false else numListLt xs ys

/-- Weak lexicographic order on numeric component lists (Python tuple `<=`). -/
def numListLe : List Nat → List Nat → Bool
  | [], _ => true
  | _ :: _, [] => false
  | x :: xs, y :: ys => if x < y then true else if y < x then false else numListLe xs ys

/-- The numeric dotted-version components of a version string (missing or
malformed components read as 0). -/
def version_nums (s : String) : List Nat :=
  (splitOnDot s.data).map (fun p => (parseDigits p).getD 0)

/-- Numeric per-component "installed is older than latest", the comparison the
specification intends for the `outdated` flag. -/
def version_older (installed latest : String) : Bool :=
  numListLt (version_nums installed) (version_nums latest)

example : plugin_outdated "9.5" "10.0" = false := by decide
example : version_older "9.5" "10.0" = true := by decide

/-! ### CMS detection (`run_cms_detection`, lines 344-443)

The regex machinery of Python is abstracted into two oracle functions:
`rmatch pattern text` models `re.search(pattern, text, re.IGNORECASE)
is not None`, and `rmeta pattern text` models the same search for a meta
generator regex together with its first captured group.  Everything else —
the signature table, the scoring arithmetic, the candidate order, the
first-nonzero-score selection and the confidence thresholds — is concrete. -/

/-- One entry of the `cms_signatures` table: the path-pattern regexes, the
optional meta-generator regex and the cookie names, exactly as written in the
source. -/
structure CmsSig where
  name : String
  patterns : List String
  meta : Option String
  cookies : List String
deriving DecidableEq, Repr

/-- The `cms_signatures` table (lines 373-398), in source order. -/
def cms_signatures : List CmsSig :=
  [⟨"WordPress", ["/wp-content/", "/wp-includes/", "wp-json"],
      some "<meta name=\"generator\" content=\"WordPress ([\\d.]+)\"", []⟩,
   ⟨"Joomla", ["/media/system/js/", "/components/com_"],
      some "<meta name=\"generator\" content=\"Joomla[!]?\\s*([\\d.]*)\"", []⟩,
   ⟨"Drupal", ["/sites/all/", "/sites/default/", "Drupal.settings"],
      some "<meta name=\"Generator\" content=\"Drupal ([\\d.]+)\"", []⟩,
   ⟨"Shopify", ["cdn\\.shopify\\.com", "Shopify\\.theme"], none, []⟩,
   ⟨"Laravel", [], none, ["laravel_session", "XSRF-TOKEN"]⟩,
   ⟨"Magento", ["/skin/frontend/", "Mage\\.Cookies", "/static/frontend/"], none, []⟩]

/-- The score, captured version and indicator list one candidate accumulates
(lines 400-423): +1 per matching path pattern, +2 for a matching meta
generator tag (capturing the version), +2 per matching cookie name. -/
def cms_score (rmatch : String → String → Bool)
    (rmeta : String → String → Option String)
    (text : String) (cookies : List String) (sig : CmsSig) :
    Nat × Option String × List String :=
  let patHits := sig.patterns.filter (fun p => rmatch p text)
  let metaPart : Nat × Option String × List String :=
    match sig.meta with
    | none => (0, none, [])
    | some mp =>
        match rmeta mp text with
        | none => (0, none, [])
        | some v => (2, some v, ["Generator meta tag found"])
  let cookieHits := sig.cookies.filter (fun c => cookies.contains c)
  (patHits.length + metaPart.1 + 2 * cookieHits.length,
   metaPart.2.1,
   patHits.map (fun p => "Found: " ++ p) ++ metaPart.2.2 ++
     cookieHits.map (fun c => "Cookie: " ++ c))

/-- The detector's output fields. -/
structure CmsDetection where
  detected : Bool
  cms_name : Option String
  cms_version : Option String
  confidence : String
  indicators : List String
deriving DecidableEq, Repr

/-- The candidate loop of `run_cms_detection` (lines 400-431): the first
candidate with a nonzero score is reported and the loop breaks. -/
def cms_detect_go (rmatch : String → String → Bool)
    (rmeta : String → String → Option String)
    (text : String) (cookies : List String) : List CmsSig → CmsDetection
  | [] => ⟨false, none, none, "low", []⟩
  | sig :: rest =>
      let sc := cms_score rmatch rmeta text cookies sig
      if 0 < sc.1 then
        ⟨true, some sig.name, sc.2.1,
          if 3 ≤ sc.1 then "high" else if 2 ≤ sc.1 then "medium" else "low",
          sc.2.2⟩
      else cms_detect_go rmatch rmeta text cookies rest

/-- Model of the detection core of `run_cms_detection`, applied to the fetched
page text and response cookie names. -/
def run_cms_detection (rmatch : String → String → Bool)
    (rmeta : String → String → Option String)
    (text : String) (cookies : List String) : CmsDetection :=
  cms_detect_go rmatch rmeta text cookies cms_signatures

/-- The confidence thresholds as the specification states them. -/
def confidence_of (score : Nat) : String :=
  if 3 ≤ score then "high" else if 2 ≤ score then "medium" else "low"

/-- Specification-side detector: report the first candidate of the table whose
score is nonzero, with `confidence_of` its score. -/
def cms_detect_spec (rmatch : String → String → Bool)
    (rmeta : String → String → Option String)
    (text : String) (cookies : List String) : CmsDetection :=
  match cms_signatures.find?
      (fun sig => 0 < (cms_score rmatch rmeta text cookies sig).1) with
  | none => ⟨false, none, none, "low", []⟩
  | some sig =>
      let sc := cms_score rmatch rmeta text cookies sig
      ⟨true, some sig.name, sc.2.1, confidence_of sc.1, sc.2.2⟩

/-- Literal-substring regex oracle: adequate for patterns without
metacharacters (and for `.` matching itself). -/
def lit_match (pattern text : String) : Bool := strHasSub text pattern

/-- Regex oracle for a page with no generator meta tag. -/
def no_meta : String → String → Option String := fun _ _ => none

/-- A page on which WordPress scores 1 and Drupal scores 3. -/
def cmsPageWpDrupal : String :=
  "/wp-content/ /sites/all/ /sites/default/ Drupal.settings"

example :
    (run_cms_detection lit_match no_meta cmsPageWpDrupal []).cms_name =
      some "WordPress" := by decide
example :
    (cms_score lit_match no_meta cmsPageWpDrupal []
      (cms_signatures.getD 2 ⟨"", [], none, []⟩)).1 = 3 := by decide

/-! ### WordPress enumeration (`run_wp_enum`, lines 616-804)

The initial page fetch (lines 639-644) is represented by its outcome: the
resolved site `url` and the fetched `page_content`.  Every later outbound
request goes through the oracle `fetch`; regex extractions over fetched
bodies are oracle functions as well.  Control flow, iteration caps, the
fallback orders, the outdated comparison, the vulnerability counting and the
severity keyword rule are concrete.  Each helper also returns the list of
URLs it requested, so "no lookup request is issued" is expressible. -/

/-- An HTTP response as `run_wp_enum` consumes it: status code, body text and
the `Location` header (empty when absent). -/
structure HttpResp where
  status : Nat
  body : String
  location : String
deriving DecidableEq, Repr

/-- The oracles of `run_wp_enum`: the network and the regex extractions. -/
structure WpEnv where
  /-- `requests.get url` — `none` models a raised exception -/
  fetch : String → Option HttpResp
  /-- `re.findall(r"/wp-content/plugins/([a-zA-Z0-9\-_]+)/", page)`, dedup order of `set` -/
  pluginsOf : String → List String
  /-- `re.findall(r"/wp-content/themes/([a-zA-Z0-9\-_]+)/", page)`, dedup order of `set` -/
  themesOf : String → List String
  /-- `re.search('<meta name="generator" content="WordPress ([\d.]+)"', page)` group 1 -/
  wpVersionOf : String → Option String
  /-- `re.search(r'Stable tag:\s*([\d.]+)', body, re.IGNORECASE)` group 1 -/
  stableTagOf : String → Option String
  /-- `re.search(r'= ([\d.]+) - \d{4}-\d{2}-\d{2} =', body)` group 1 -/
  changelogOf : String → Option String
  /-- `re.search(r'Version:\s*([\d.]+)', body)` group 1 -/
  versionHeaderOf : String → Option String
  /-- `re.search(r'Version\s*<strong>([\d.]+)</strong>', body)` group 1 -/
  latestOf : String → Option String
  /-- `re.findall(r'Fixed in\s+([\d.]+)', body)` -/
  fixedInOf : String → List String
  /-- `re.findall(r'Title\s*</div>\s*<a href="[^"]+">([^<]+)', body)` -/
  titlesOf : String → List String
  /-- `uresp.json()` parsed as a user list of `(get "id", get "slug", get "name")`;
  `none` models a JSON decode failure (an exception) -/
  usersJsonOf : String → Option (List (Option Nat × Option String × Option String))
  /-- `re.search(r'/author/([^/]+)', location)` group 1 -/
  authorLocOf : String → Option String

/-- One plugin record of the result. -/
structure WpPlugin where
  name : String
  version : Option String
  outdated : Bool
  vulnerabilities : Nat
  vulnerable : Bool
deriving DecidableEq, Repr

/-- One theme record of the result. -/
structure WpTheme where
  name : String
  version : Option String
  outdated : Bool
deriving DecidableEq, Repr

/-- One enumerated user. -/
structure WpUser where
  id : Option Nat
  username : String
deriving DecidableEq, Repr

/-- One vulnerability finding. -/
structure WpVuln where
  component : String
  title : String
  vtype : String
  severity : String
deriving DecidableEq, Repr

/-- The result envelope of `run_wp_enum` (lines 621-630). -/
structure WpResult where
  wordpress_detected : Bool
  version : Option String
  plugins : List WpPlugin
  themes : List WpTheme
  users : List WpUser
  vulnerabilities : List WpVuln
  status : String
deriving DecidableEq, Repr

/-- The initial result dictionary of `run_wp_enum`. -/
def wpInit : WpResult := ⟨false, none, [], [], [], [], "completed"⟩

/-- The WordPress indicator markers (line 649). -/
def wp_indicators : List String :=
  ["/wp-content/", "/wp-includes/", "wp-json", "WordPress"]

/-- `is_wp = any(ind in page_content for ind in wp_indicators)` (line 650). -/
def is_wp (page_content : String) : Bool :=
  wp_indicators.any (fun ind => strHasSub page_content ind)

/-- The version-file fallback chain for one plugin (lines 681-701): try
`readme.txt` then `changelog.txt`; on a 200 response take the first of
`Stable tag`, changelog entry, `Version:` header; stop at the first file that
yields a version. -/
def plugin_version_probe (env : WpEnv) (url plugin : String) :
    List String → Option String × List String
  | [] => (none, [])
  | file :: rest =>
      let purl := url ++ "/wp-content/plugins/" ++ plugin ++ "/" ++ file
      match env.fetch purl with
      | none =>
          let next := plugin_version_probe env url plugin rest
          (next.1, purl :: next.2)
      | some resp =>
          if resp.status = 200 then
            let v :=
              match env.stableTagOf resp.body with
              | some v => some v
              | none =>
                  match env.changelogOf resp.body with
                  | some v => some v
                  | none => env.versionHeaderOf resp.body
            match v with
            | some v => (some v, [purl])
            | none =>
                let next := plugin_version_probe env url plugin rest
                (next.1, purl :: next.2)
          else
            let next := plugin_version_probe env url plugin rest
            (next.1, purl :: next.2)

/-- The wordpress.org staleness check for one plugin (lines 704-715):
on a 200 response whose page yields a latest version, the plugin is outdated
iff `installed < latest` as Python strings. -/
def plugin_outdated_probe (env : WpEnv) (plugin ver : String) : Bool × List String :=
  let wurl := "https://wordpress.org/plugins/" ++ plugin ++ "/"
  match env.fetch wurl with
  | none => (false, [wurl])
  | some resp =>
      if resp.status = 200 then
        match env.latestOf resp.body with
        | some latest => (plugin_outdated ver latest, [wurl])
        | none => (false, [wurl])
      else (false, [wurl])

/-- `tuple(map(int, s.split('.')[:3]))` — `none` when some component is not a
plain digit string. -/
def version_tuple3 (s : String) : Option (List Nat) :=
  let parts := (splitOnDot s.data).take 3
  if parts.all (fun p => (parseDigits p).isSome) then
    some (parts.map (fun p => (parseDigits p).getD 0))
  else none

/-- The wpscan.com vulnerability cross-reference for one plugin
(lines 718-744): zip the `Fixed in` versions with the titles, count the pairs
whose fixed-in version is `>=` the installed version (numeric tuple
comparison, skipping unparsable pairs), and derive each finding's severity
from the keyword `critical` in its title. -/
def plugin_vuln_probe (env : WpEnv) (plugin ver : String) :
    (Nat × List WpVuln) × List String :=
  let wurl := "https://wpscan.com/plugin/" ++ plugin
  match env.fetch wurl with
  | none => ((0, []), [wurl])
  | some resp =>
      if resp.status = 200 then
        let pairs := (env.fixedInOf resp.body).zip (env.titlesOf resp.body)
        let counted := pairs.foldl
          (fun acc pr =>
            match version_tuple3 ver, version_tuple3 pr.1 with
            | some tv, some tf =>
                if numListLe tv tf then
                  (acc.1 + 1,
                   acc.2 ++ [⟨"Plugin: " ++ plugin, pyStrip pr.2, "unknown",
                     if strHasSub (lowerStr pr.2) "critical" then "high"
                     else "medium"⟩])
                else acc
            | _, _ => acc)
          ((0, []) : Nat × List WpVuln)
        (counted, [wurl])
      else ((0, []), [wurl])

/-- Processing of one discovered plugin (lines 671-746). -/
def process_plugin (env : WpEnv) (url plugin : String) :
    (WpPlugin × List WpVuln) × List String :=
  let probe := plugin_version_probe env url plugin ["readme.txt", "changelog.txt"]
  match probe.1 with
  | none => ((⟨plugin, none, false, 0, false⟩, []), probe.2)
  | some ver =>
      let outd := plugin_outdated_probe env plugin ver
      let vuln := plugin_vuln_probe env plugin ver
      ((⟨plugin, some ver, outd.1, vuln.1.1, decide (0 < vuln.1.1)⟩, vuln.1.2),
       probe.2 ++ outd.2 ++ vuln.2)

/-- Processing of one discovered theme (lines 749-767): read the version from
`style.css` when it answers 200. -/
def process_theme (env : WpEnv) (url theme : String) : WpTheme × List String :=
  let surl := url ++ "/wp-content/themes/" ++ theme ++ "/style.css"
  match env.fetch surl with
  | none => (⟨theme, none, false⟩, [surl])
  | some resp =>
      if resp.status = 200 then (⟨theme, env.versionHeaderOf resp.body, false⟩, [surl])
      else (⟨theme, none, false⟩, [surl])

/-- `user.get("slug") or user.get("name", "")` (line 778). -/
def user_name_of (slug nameField : Option String) : String :=
  match slug with
  | some s => if s = "" then nameField.getD "" else s
  | none => nameField.getD ""

/-- The author-archive fallback: probe `/?author=i` for the given ids
(lines 782-795); a 301/302 with an `/author/<name>` redirect yields a user. -/
def author_probe (env : WpEnv) (url : String) :
    List Nat → List WpUser × List String
  | [] => ([], [])
  | i :: rest =>
      let aurl := url ++ "/?author=" ++ toString i
      let next := author_probe env url rest
      match env.fetch aurl with
      | none => (next.1, aurl :: next.2)
      | some resp =>
          if resp.status = 301 || resp.status = 302 then
            match env.authorLocOf resp.location with
            | some nm => (⟨some i, nm⟩ :: next.1, aurl :: next.2)
            | none => (next.1, aurl :: next.2)
          else (next.1, aurl :: next.2)

/-- User enumeration (lines 770-795): the `wp-json/wp/v2/users` endpoint,
falling back to author-id probing only when the request or its JSON decoding
raises. -/
def enum_users (env : WpEnv) (url : String) : List WpUser × List String :=
  let uurl := url ++ "/wp-json/wp/v2/users"
  match env.fetch uurl with
  | none =>
      let fb := author_probe env url [1, 2, 3, 4, 5, 6, 7, 8, 9, 10]
      (fb.1, uurl :: fb.2)
  | some resp =>
      if resp.status = 200 then
        match env.usersJsonOf resp.body with
        | some usersData =>
            ((usersData.take 20).map
              (fun u => ⟨u.1, user_name_of u.2.1 u.2.2⟩), [uurl])
        | none =>
            let fb := author_probe env url [1, 2, 3, 4, 5, 6, 7, 8, 9, 10]
            (fb.1, uurl :: fb.2)
      else ([], [uurl])

/-- Model of `run_wp_enum` (lines 616-804) after the initial page fetch.
Returns the result envelope and the list of lookup URLs requested. -/
def run_wp_enum (env : WpEnv) (url page_content : String) :
    WpResult × List String :=
  if !is_wp page_content then (wpInit, [])
  else
    let version := env.wpVersionOf page_content
    let plugins := (env.pluginsOf page_content).take 20
    let themes := (env.themesOf page_content).take 10
    let pluginRuns := plugins.map (process_plugin env url)
    let themeRuns := themes.map (process_theme env url)
    let users := enum_users env url
    ({ wpInit with
        wordpress_detected := true
        version := version
        plugins := pluginRuns.map (fun r => r.1.1)
        themes := themeRuns.map (fun r => r.1)
        users := users.1
        vulnerabilities := (pluginRuns.map (fun r => r.1.2)).flatten },
     (pluginRuns.map (fun r => r.2)).flatten ++
       (themeRuns.map (fun r => r.2)).flatten ++ users.2)

/-- An environment in which every request fails and every extraction is
empty. -/
def wpEnvDead : WpEnv :=
  ⟨fun _ => none, fun _ => [], fun _ => [], fun _ => none, fun _ => none,
   fun _ => none, fun _ => none, fun _ => none, fun _ => [], fun _ => [],
   fun _ => none, fun _ => none⟩

example : run_wp_enum wpEnvDead "https://example.com" "hello world" =
    (wpInit, []) := by decide

/-! ## Supporting lemmas -/

theorem run_scan_task_of_invalid {α : Type}
    (handlers : String → Option (String → Except String α))
    (target : String) (options : ScanOptions) (e : String)
    (hv : validate_target target = .error e) :
    run_scan_task handlers target options =
      (⟨"failed", 0, none, [("error", .strVal e)]⟩,
       [⟨"failed", 0, none, [("error", .strVal e)]⟩]) := by
  unfold run_scan_task
  rw [hv]

theorem run_scan_task_of_valid {α : Type}
    (handlers : String → Option (String → Except String α))
    (target host : String) (options : ScanOptions)
    (hv : validate_target target = .ok host) :
    run_scan_task handlers target options =
      (⟨"completed", 100, none,
          (scan_loop handlers host
            (if (modules_to_run options).length = 0 then 1
             else (modules_to_run options).length) (modules_to_run options) 0).1⟩,
       ⟨"running", 0, none, []⟩ ::
         ((scan_loop handlers host
            (if (modules_to_run options).length = 0 then 1
             else (modules_to_run options).length) (modules_to_run options) 0).2 ++
          [⟨"completed", 100, none,
            (scan_loop handlers host
              (if (modules_to_run options).length = 0 then 1
               else (modules_to_run options).length) (modules_to_run options) 0).1⟩])) := by
  unfold run_scan_task
  rw [hv]

theorem scan_loop_results {α : Type}
    (handlers : String → Option (String → Except String α))
    (target : String) (total : Nat) (l : List String) (i : Nat) :
    (scan_loop handlers target total l i).1 =
      l.map (fun m => (m, module_entry handlers target m)) := by
  induction l generalizing i with
  | nil => rfl
  | cons m rest ih => simp [scan_loop, ih]

theorem scan_loop_commits_mem {α : Type}
    (handlers : String → Option (String → Except String α))
    (target : String) (total : Nat) (l : List String) (i : Nat)
    (s : ScanState α) (hs : s ∈ (scan_loop handlers target total l i).2) :
    s.status = "running" ∧ ∃ j, j < l.length ∧ s.progress = (i + j) * 100 / total := by
  induction l generalizing i with
  | nil => simp [scan_loop] at hs
  | cons m rest ih =>
      simp only [scan_loop, List.mem_cons] at hs
      rcases hs with hs | hs
      · subst hs
        exact ⟨rfl, 0, by simp, by simp⟩
      · obtain ⟨hst, j, hj, hp⟩ := ih (i + 1) hs
        refine ⟨hst, j + 1, by simpa using Nat.succ_lt_succ hj, ?_⟩
        rw [hp]
        congr 1
        omega

theorem prog_lt_100 (j total : Nat) (h0 : 0 < total) (hj : j < total) :
    j * 100 / total < 100 := by
  rw [Nat.div_lt_iff_lt_mul h0]
  omega

theorem scan_loop_commits_chain {α : Type}
    (handlers : String → Option (String → Except String α))
    (target : String) (total : Nat) (l : List String) (i : Nat) :
    List.Chain' (· ≤ ·)
      (((scan_loop handlers target total l i).2).map ScanState.progress) := by
  induction l generalizing i with
  | nil => simp [scan_loop]
  | cons m rest ih =>
      simp only [scan_loop, List.map_cons]
      rw [List.chain'_cons']
      refine ⟨?_, ih (i + 1)⟩
      intro b hb
      cases rest with
      | nil => simp [scan_loop] at hb
      | cons m2 rest2 =>
          simp only [scan_loop, List.map_cons, List.head?_cons, Option.mem_def,
            Option.some.injEq] at hb
          subst hb
          exact Nat.div_le_div_right (by omega)

theorem lookup_map_self {β : Type} (f : String → β) (l : List String) (m : String)
    (hm : m ∈ l) :
    (l.map (fun x => (x, f x))).lookup m = some (f m) := by
  induction l with
  | nil => simp at hm
  | cons x rest ih =>
      by_cases hx : m = x
      · subst hx
        simp [List.lookup]
      · rcases List.mem_cons.mp hm with h | h
        · exact absurd h hx
        · simpa [List.lookup, beq_false_of_ne hx] using ih h

theorem validate_target_error_ne_empty (t e : String)
    (h : validate_target t = .error e) : e ≠ "" := by
  unfold validate_target at h
  split_ifs at h with h1 h2 h3
  · injection h with h4
    subst h4
    decide
  · injection h with h4
    subst h4
    decide
  · injection h with h4
    subst h4
    intro hc
    have hlen := congrArg String.length hc
    rw [String.length_append] at hlen
    have hl1 : ("Invalid target format: " : String).length = 23 := rfl
    have hl2 : ("" : String).length = 0 := rfl
    omega

theorem mem_of_getLast?_mem {β : Type} {l : List β} {x : β} (h : x ∈ l.getLast?) :
    x ∈ l := by
  obtain ⟨hne, hx⟩ := List.mem_getLast?_eq_getLast h
  subst hx
  exact List.getLast_mem hne

theorem commits_chain_aux {α : Type}
    (handlers : String → Option (String → Except String α))
    (host : String) (total : Nat) (l : List String)
    (h0 : 0 < total) (hlen : l.length ≤ total) :
    List.Chain' (· ≤ ·)
      (0 :: (((scan_loop handlers host total l 0).2).map ScanState.progress ++
        [100])) := by
  rw [List.chain'_cons']
  refine ⟨fun b _ => Nat.zero_le b, ?_⟩
  rw [List.chain'_append]
  refine ⟨scan_loop_commits_chain handlers host total l 0, List.chain'_singleton _, ?_⟩
  intro x hx y hy
  simp only [List.head?_cons, Option.mem_def, Option.some.injEq] at hy
  subst hy
  have hxm : x ∈ ((scan_loop handlers host total l 0).2).map ScanState.progress :=
    mem_of_getLast?_mem hx
  obtain ⟨s, hs, hsx⟩ := List.mem_map.mp hxm
  obtain ⟨_, j, hj, hp⟩ := scan_loop_commits_mem handlers host total l 0 s hs
  subst hsx
  rw [hp]
  simp only [Nat.zero_add]
  exact le_of_lt (prog_lt_100 j total h0 (lt_of_lt_of_le hj hlen))

/-! ## Claim theorems -/

/-- C1.  For every module plan and every target that passes validation,
whatever each adapter does — return any payload, return an error result, or
raise — every module of the plan gets an entry in `results` (so every module
was executed), and the scan's terminal status is `completed`, never `failed`
because of a module-only error. -/
theorem c1_module_errors_isolated {α : Type}
    (handlers : String → Option (String → Except String α))
    (target host : String) (options : ScanOptions)
    (hv : validate_target target = .ok host) :
    (run_scan_task handlers target options).1.status = "completed" ∧
    ((run_scan_task handlers target options).1.results).map Prod.fst =
      modules_to_run options := by
  rw [run_scan_task_of_valid handlers target host options hv]
  refine ⟨rfl, ?_⟩
  rw [scan_loop_results]
  simp [Function.comp_def]

/-- Witness for C1: the target `example.com` validates, and a run in which
every adapter raises still terminates `completed` with one result entry per
planned module. -/
theorem c1_module_errors_isolated_witness :
    validate_target "example.com" = .ok "example.com" ∧
    (run_scan_task failAllHandlers "example.com" optsEmpty).1.status = "completed" ∧
    ((run_scan_task failAllHandlers "example.com" optsEmpty).1.results).map Prod.fst =
      modules_to_run optsEmpty :=
  ⟨by decide,
   (c1_module_errors_isolated failAllHandlers "example.com" "example.com" optsEmpty
      (by decide)).1,
   (c1_module_errors_isolated failAllHandlers "example.com" "example.com" optsEmpty
      (by decide)).2⟩

/-- C2 (counterexample).  The raw input `file://etc/passwd` contains the
`file://` prefix, yet `validate_target` accepts it: the input is first
truncated at the first `:` (the port-stripping step), which removes the
scheme before the dangerous-pattern check runs.  A scan of this target
therefore runs every planned module and completes. -/
theorem c2_counterexample_file_scheme_accepted :
    validate_target "file://etc/passwd" = .ok "file" ∧
    (run_scan_task failAllHandlers "file://etc/passwd" optsEmpty).1.status =
      "completed" ∧
    ((run_scan_task failAllHandlers "file://etc/passwd" optsEmpty).1.results).map
        Prod.fst = ["waf", "port", "subdo", "cms", "tech", "dir"] := by
  decide

/-- C2 (amended).  For every raw input that is non-empty and whose extracted
host — the input after whitespace stripping, scheme-netloc extraction and
truncation at the first `:` — still contains a dangerous pattern (`..`, `;`,
`|`, `&`, a NUL byte, `file://`, …), `validate_target` raises the
dangerous-pattern error, and a scan of that target is marked `failed` with
only the error entry in `results`: no module executes. -/
theorem c2_amended_dangerous_host_rejected {α : Type}
    (handlers : String → Option (String → Except String α))
    (target : String) (options : ScanOptions)
    (hne : ¬ target = "")
    (hd : has_dangerous (extract_domain target) = true) :
    validate_target target = .error "Invalid target: contains dangerous pattern" ∧
    (run_scan_task handlers target options).1.status = "failed" ∧
    (run_scan_task handlers target options).1.results =
      [("error", .strVal "Invalid target: contains dangerous pattern")] := by
  have hv : validate_target target =
      .error "Invalid target: contains dangerous pattern" := by
    unfold validate_target
    rw [if_neg hne, if_pos hd]
  refine ⟨hv, ?_, ?_⟩ <;>
    rw [run_scan_task_of_invalid handlers target options _ hv]

/-- Witness for C2 (amended): `../../etc/passwd` is non-empty, its extracted
host contains `..`, and the scan of it fails with the validation error as its
only result entry. -/
theorem c2_amended_dangerous_host_rejected_witness :
    (¬ ("../../etc/passwd" : String) = "") ∧
    has_dangerous (extract_domain "../../etc/passwd") = true ∧
    validate_target "../../etc/passwd" =
      .error "Invalid target: contains dangerous pattern" ∧
    (run_scan_task failAllHandlers "../../etc/passwd" optsEmpty).1.status =
      "failed" ∧
    (run_scan_task failAllHandlers "../../etc/passwd" optsEmpty).1.results =
      [("error", .strVal "Invalid target: contains dangerous pattern")] :=
  ⟨by decide, by decide,
   (c2_amended_dangerous_host_rejected failAllHandlers "../../etc/passwd" optsEmpty
      (by decide) (by decide)).1,
   (c2_amended_dangerous_host_rejected failAllHandlers "../../etc/passwd" optsEmpty
      (by decide) (by decide)).2.1,
   (c2_amended_dangerous_host_rejected failAllHandlers "../../etc/passwd" optsEmpty
      (by decide) (by decide)).2.2⟩

/-- C5 (counterexample).  For the invalid target `../../etc/passwd` the scan
ends `failed`, but its persisted `results` mapping is `{"error": message}`,
not the empty mapping `{}` the claim states: the error message is stored
inside `results`. -/
theorem c5_counterexample_results_carry_error :
    (run_scan_task failAllHandlers "../../etc/passwd" optsEmpty).1.status =
      "failed" ∧
    (run_scan_task failAllHandlers "../../etc/passwd" optsEmpty).1.results ≠ [] := by
  decide

/-- C5 (amended).  For every target that fails validation the scan ends
`failed`, and `results` is exactly the single entry `"error"` carrying the
non-empty validation message — it contains no module result, but it is not
the empty mapping. -/
theorem c5_amended_failed_scan_error_results {α : Type}
    (handlers : String → Option (String → Except String α))
    (target e : String) (options : ScanOptions)
    (hv : validate_target target = .error e) :
    (run_scan_task handlers target options).1.status = "failed" ∧
    (run_scan_task handlers target options).1.results = [("error", .strVal e)] ∧
    e ≠ "" := by
  refine ⟨?_, ?_, validate_target_error_ne_empty target e hv⟩ <;>
    rw [run_scan_task_of_invalid handlers target options e hv]

/-- Witness for C5 (amended), at the claim's own scenario input. -/
theorem c5_amended_failed_scan_error_results_witness :
    validate_target "../../etc/passwd" =
      .error "Invalid target: contains dangerous pattern" ∧
    ((run_scan_task failAllHandlers "../../etc/passwd" optsEmpty).1.status =
        "failed" ∧
      (run_scan_task failAllHandlers "../../etc/passwd" optsEmpty).1.results =
        [("error", .strVal "Invalid target: contains dangerous pattern")] ∧
      ("Invalid target: contains dangerous pattern" : String) ≠ "") :=
  ⟨by decide,
   c5_amended_failed_scan_error_results failAllHandlers "../../etc/passwd"
     "Invalid target: contains dangerous pattern" optsEmpty (by decide)⟩

/-- C6 (counterexample).  When the `waf` adapter raises `boom`, the stored
ModuleResult's `status` field is `"failed"`, not `"error"` as the claim
states. -/
theorem c6_counterexample_status_is_failed :
    (((run_scan_task failAllHandlers "example.com" optsEmpty).1.results).lookup
        "waf").map RVal.statusField = some (some "failed") ∧
    ("failed" : String) ≠ "error" := by
  decide

/-- C6 (amended).  For every module of the plan whose adapter raises, the
orchestrator stores as that module's result the dictionary
`{"error": message, "status": "failed"}` — the run is not aborted, but the
stored status tag is `failed`, not `error`. -/
theorem c6_amended_raise_stored_as_failed_dict {α : Type}
    (handlers : String → Option (String → Except String α))
    (target host m e : String) (options : ScanOptions)
    (hv : validate_target target = .ok host)
    (hm : m ∈ modules_to_run options)
    (hraise : run_module handlers m host = .error e) :
    ((run_scan_task handlers target options).1.results).lookup m =
      some (.dict [("error", e), ("status", "failed")]) := by
  rw [run_scan_task_of_valid handlers target host options hv]
  simp only [scan_loop_results]
  rw [lookup_map_self _ _ _ hm]
  unfold module_entry
  rw [hraise]

/-- Witness for C6 (amended): the raising `waf` adapter's stored entry. -/
theorem c6_amended_raise_stored_as_failed_dict_witness :
    validate_target "example.com" = .ok "example.com" ∧
    ("waf" : String) ∈ modules_to_run optsEmpty ∧
    run_module failAllHandlers "waf" "example.com" = .error "boom" ∧
    ((run_scan_task failAllHandlers "example.com" optsEmpty).1.results).lookup
        "waf" = some (.dict [("error", "boom"), ("status", "failed")]) :=
  ⟨by decide, by decide, by decide,
   c6_amended_raise_stored_as_failed_dict failAllHandlers "example.com"
     "example.com" "waf" "boom" optsEmpty (by decide) (by decide) (by decide)⟩

/-- C3.  Throughout one orchestrator run — whatever the adapters do — the
sequence of persisted progress values is non-decreasing, every persisted
state with progress 100 has status `completed`, and the terminal state has
progress exactly 100 if and only if its status is `completed` (a scan that
ends `failed` never reaches progress 100). -/
theorem c3_progress_monotone_and_100_iff_completed {α : Type}
    (handlers : String → Option (String → Except String α))
    (target : String) (options : ScanOptions) :
    List.Chain' (· ≤ ·)
      (((run_scan_task handlers target options).2).map ScanState.progress) ∧
    (∀ s ∈ (run_scan_task handlers target options).2,
        s.progress = 100 → s.status = "completed") ∧
    ((run_scan_task handlers target options).1.progress = 100 ↔
      (run_scan_task handlers target options).1.status = "completed") := by
  cases hv : validate_target target with
  | error e =>
      rw [run_scan_task_of_invalid handlers target options e hv]
      refine ⟨by simp, ?_, ?_⟩
      · intro s hs hp
        simp only [List.mem_singleton] at hs
        subst hs
        simp at hp
      · refine iff_of_false (by simp) ?_
        intro hc
        have hc2 : ("failed" : String) = "completed" := hc
        exact absurd hc2 (by decide)
  | ok host =>
      rw [run_scan_task_of_valid handlers target host options hv]
      have h0 : 0 < (if (modules_to_run options).length = 0 then 1
          else (modules_to_run options).length) := by
        split <;> omega
      have hlen : (modules_to_run options).length ≤
          (if (modules_to_run options).length = 0 then 1
           else (modules_to_run options).length) := by
        split <;> omega
      refine ⟨?_, ?_, iff_of_true rfl rfl⟩
      · simpa using commits_chain_aux handlers host _ (modules_to_run options) h0 hlen
      · intro s hs hp
        simp only [List.mem_cons, List.mem_append, List.mem_singleton] at hs
        rcases hs with hs | hs | hs | hs
        · subst hs
          simp at hp
        · obtain ⟨_, j, hj, hprog⟩ :=
            scan_loop_commits_mem handlers host _ (modules_to_run options) 0 s hs
          rw [hprog] at hp
          simp only [Nat.zero_add] at hp
          exact absurd hp (Nat.ne_of_lt (prog_lt_100 j _ h0 (lt_of_lt_of_le hj hlen)))
        · subst hs
          rfl
        · simp at hs

/-- A version-registry environment: wordpress.org answers 200 and publishes
latest version `10.0`. -/
def wpOrgEnv : WpEnv :=
  { wpEnvDead with
      fetch := fun _ => some ⟨200, "", ""⟩
      latestOf := fun _ => some "10.0" }

/-- C4.  The `outdated` flag is computed by lexical string comparison, not by
numeric per-component comparison: an installed `9.5` with published latest
`10.0` is NOT flagged outdated (though it is numerically older), and an
installed `10.0` with published latest `9.5` IS flagged outdated (though it
is numerically newer).  The full registry probe shows the same at the module
level. -/
theorem c4_outdated_is_lexical_not_numeric :
    plugin_outdated "9.5" "10.0" = false ∧
    version_older "9.5" "10.0" = true ∧
    plugin_outdated "10.0" "9.5" = true ∧
    version_older "10.0" "9.5" = false ∧
    (plugin_outdated_probe wpOrgEnv "akismet" "9.5").1 = false := by
  decide

/-- C7.  The module plan is exactly the fixed order
`waf, port, subdo, cms, tech, dir, wp` filtered by each module's enable flag
(`wp` defaulting to excluded, all others to included); in particular the plan
is a subsequence of the fixed order. -/
theorem c7_plan_is_filter_of_fixed_order (o : ScanOptions) :
    modules_to_run o = module_order.filter (module_flag o) ∧
    (modules_to_run o).Sublist module_order := by
  have h : modules_to_run o = module_order.filter (module_flag o) := by
    obtain ⟨waf, port, subdo, cms, tech, dirFlag, wp⟩ := o
    simp only [modules_to_run, module_order, module_flag, List.filter_cons,
      List.filter_nil]
    norm_num
    generalize waf.getD true = b1
    generalize port.getD true = b2
    generalize subdo.getD true = b3
    generalize cms.getD true = b4
    generalize tech.getD true = b5
    generalize dirFlag.getD true = b6
    generalize wp.getD false = b7
    cases b1 <;> cases b2 <;> cases b3 <;> cases b4 <;> cases b5 <;>
      cases b6 <;> cases b7 <;> rfl
  exact ⟨h, h ▸ List.filter_sublist module_order⟩

/-- C8.  A parsed open port is classified `high` iff its number is one of
21, 23, 3389, 5900; `medium` iff one of 22, 25, 110, 143, 3306, 5432; and
`low` exactly otherwise. -/
theorem c8_port_risk_classification (p : Nat) :
    (port_risk p = "high" ↔ p ∈ [21, 23, 3389, 5900]) ∧
    (port_risk p = "medium" ↔ p ∈ [22, 25, 110, 143, 3306, 5432]) ∧
    (port_risk p = "low" ↔
      (p ∉ [21, 23, 3389, 5900] ∧ p ∉ [22, 25, 110, 143, 3306, 5432])) := by
  by_cases h1 : p ∈ [21, 23, 3389, 5900]
  · have h2 : p ∉ [22, 25, 110, 143, 3306, 5432] := by
      simp only [List.mem_cons, List.not_mem_nil, or_false] at h1 ⊢
      omega
    refine ⟨iff_of_true (by simp [port_risk, h1]) h1, ?_, ?_⟩
    · refine iff_of_false ?_ h2
      simp only [port_risk, if_pos h1]
      decide
    · refine iff_of_false ?_ (fun hc => hc.1 h1)
      simp only [port_risk, if_pos h1]
      decide
  · by_cases h2 : p ∈ [22, 25, 110, 143, 3306, 5432]
    · refine ⟨?_, iff_of_true (by simp [port_risk, h1, h2]) h2, ?_⟩
      · refine iff_of_false ?_ h1
        simp only [port_risk, if_neg h1, if_pos h2]
        decide
      · refine iff_of_false ?_ (fun hc => hc.2 h2)
        simp only [port_risk, if_neg h1, if_pos h2]
        decide
    · refine ⟨?_, ?_, iff_of_true (by simp [port_risk, h1, h2]) ⟨h1, h2⟩⟩
      · refine iff_of_false ?_ h1
        simp only [port_risk, if_neg h1, if_neg h2]
        decide
      · refine iff_of_false ?_ h2
        simp only [port_risk, if_neg h1, if_neg h2]
        decide

/-- C9 (counterexample).  On a page where WordPress scores 1 (one path
pattern) and Drupal scores 3 (three path patterns), the detector reports
WordPress with confidence `low`: it reports the first candidate with a
nonzero score, not the highest-scoring one. -/
theorem c9_counterexample_first_beats_highest :
    (run_cms_detection lit_match no_meta cmsPageWpDrupal []).cms_name =
      some "WordPress" ∧
    (run_cms_detection lit_match no_meta cmsPageWpDrupal []).confidence = "low" ∧
    (cms_signatures.getD 0 ⟨"", [], none, []⟩).name = "WordPress" ∧
    (cms_score lit_match no_meta cmsPageWpDrupal []
      (cms_signatures.getD 0 ⟨"", [], none, []⟩)).1 = 1 ∧
    (cms_signatures.getD 2 ⟨"", [], none, []⟩).name = "Drupal" ∧
    (cms_score lit_match no_meta cmsPageWpDrupal []
      (cms_signatures.getD 2 ⟨"", [], none, []⟩)).1 = 3 := by
  decide

/-- C9 (amended).  For every page and response, each candidate is scored
+1 per path-pattern match, +2 for a generator meta-tag match and +2 per
cookie-name match, and the detector reports the FIRST candidate of the fixed
table to reach a nonzero score (not necessarily the highest-scoring one),
with confidence `high` if its score is at least 3, `medium` if at least 2,
and `low` otherwise. -/
theorem c9_amended_first_nonzero_with_thresholds
    (rmatch : String → String → Bool) (rmeta : String → String → Option String)
    (text : String) (cookies : List String) :
    run_cms_detection rmatch rmeta text cookies =
      cms_detect_spec rmatch rmeta text cookies := by
  unfold run_cms_detection cms_detect_spec
  generalize cms_signatures = l
  induction l with
  | nil => rfl
  | cons sig rest ih =>
      by_cases h : 0 < (cms_score rmatch rmeta text cookies sig).1
      · simp [cms_detect_go, List.find?_cons, h, confidence_of]
      · simp [cms_detect_go, List.find?_cons, h, ih]

/-- C10.  For every page that contains none of the WordPress indicator
markers, `run_wp_enum` returns early: WordPress not detected, status
`completed`, no version, empty plugin, theme, user and vulnerability lists,
and no plugin, theme or user lookup request is issued — whatever the network
and regex oracles would answer. -/
theorem c10_no_markers_early_return (env : WpEnv) (url page_content : String)
    (h : is_wp page_content = false) :
    (run_wp_enum env url page_content).1.wordpress_detected = false ∧
    (run_wp_enum env url page_content).1.status = "completed" ∧
    (run_wp_enum env url page_content).1.version = none ∧
    (run_wp_enum env url page_content).1.plugins = [] ∧
    (run_wp_enum env url page_content).1.themes = [] ∧
    (run_wp_enum env url page_content).1.users = [] ∧
    (run_wp_enum env url page_content).1.vulnerabilities = [] ∧
    (run_wp_enum env url page_content).2 = [] := by
  have hrun : run_wp_enum env url page_content = (wpInit, []) := by
    unfold run_wp_enum
    rw [h]
    rfl
  rw [hrun]
  exact ⟨rfl, rfl, rfl, rfl, rfl, rfl, rfl, rfl⟩

/-- Witness for C10: a page with no WordPress markers, in a dead
environment. -/
theorem c10_no_markers_early_return_witness :
    is_wp "hello world" = false ∧
    ((run_wp_enum wpEnvDead "https://example.com" "hello world").1.wordpress_detected =
        false ∧
      (run_wp_enum wpEnvDead "https://example.com" "hello world").1.status =
        "completed" ∧
      (run_wp_enum wpEnvDead "https://example.com" "hello world").1.version = none ∧
      (run_wp_enum wpEnvDead "https://example.com" "hello world").1.plugins = [] ∧
      (run_wp_enum wpEnvDead "https://example.com" "hello world").1.themes = [] ∧
      (run_wp_enum wpEnvDead "https://example.com" "hello world").1.users = [] ∧
      (run_wp_enum wpEnvDead "https://example.com" "hello world").1.vulnerabilities =
        [] ∧
      (run_wp_enum wpEnvDead "https://example.com" "hello world").2 = []) :=
  ⟨by decide,
   c10_no_markers_early_return wpEnvDead "https://example.com" "hello world"
     (by decide)⟩

end SiconScanner
